import Mathlib

/-!
Shallow embedding of the physics data model of the pizzatopia repository
(src/components/physics.rs and the system registration in src/main.rs).
`f32` values are embedded as rationals: the claims under verification are
about exact comparisons and exact linear arithmetic on the stored fields,
not about rounding behaviour.
-/

/-- Embedding of `ultraviolet::Vec2`. -/
structure Vec2 where
  x : ℚ
  y : ℚ
deriving DecidableEq, Repr

/-- Embedding of `CollisionSideOfBlock` (physics.rs). -/
inductive CollisionSideOfBlock where
  | Top
  | Bottom
  | Left
  | Right
deriving DecidableEq, Repr

/-- Embedding of `CollisionPoint` (physics.rs): a probe point offset,
its half reach along its perpendicular axis, and the axis tag. -/
structure CollisionPoint where
  point : Vec2
  half_reach : ℚ
  is_horizontal : Bool
deriving DecidableEq, Repr

/-- Embedding of `PlatformCollisionPoints` (physics.rs): the probe set
plus the stored half size. -/
structure PlatformCollisionPoints where
  collision_points : List CollisionPoint
  half_size : Vec2
deriving DecidableEq, Repr

/-- Embedding of `PlatformCollisionPoints::reset_collision_points`:
clears the probes and pushes left, right, top, bottom in that order. -/
def PlatformCollisionPoints.reset_collision_points
    (p : PlatformCollisionPoints) : PlatformCollisionPoints :=
  { p with collision_points :=
      [⟨⟨-p.half_size.x, 0⟩, p.half_size.y, false⟩,
       ⟨⟨p.half_size.x, 0⟩, p.half_size.y, false⟩,
       ⟨⟨0, p.half_size.y⟩, p.half_size.x, true⟩,
       ⟨⟨0, -p.half_size.y⟩, p.half_size.x, true⟩] }

/-- Embedding of `PlatformCollisionPoints::plus`. -/
def PlatformCollisionPoints.plus
    (half_width half_height : ℚ) : PlatformCollisionPoints :=
  PlatformCollisionPoints.reset_collision_points
    { collision_points := [], half_size := ⟨half_width, half_height⟩ }

/-- Embedding of `PlatformCollisionPoints::shrink_height_collision_points`:
clears the probes and pushes left, right, top, bottom in that order, with
`center_height = -half_size.y + new_half_height`. -/
def PlatformCollisionPoints.shrink_height_collision_points
    (p : PlatformCollisionPoints) (new_half_height : ℚ) :
    PlatformCollisionPoints :=
  let center_height := -p.half_size.y + new_half_height
  { p with collision_points :=
      [⟨⟨-p.half_size.x, center_height⟩, new_half_height, false⟩,
       ⟨⟨p.half_size.x, center_height⟩, new_half_height, false⟩,
       ⟨⟨0, center_height + new_half_height⟩, p.half_size.x, true⟩,
       ⟨⟨0, -p.half_size.y⟩, p.half_size.x, true⟩] }

/-- Embedding of `CollideeDetails` (physics.rs). -/
structure CollideeDetails where
  name : String
  position : Vec2
  half_size : Vec2
  new_collider_pos : Vec2
  old_collider_vel : Vec2
  new_collider_vel : Vec2
  num_points_of_collision : Int
  correction : ℚ
  distance : ℚ
  side : CollisionSideOfBlock
deriving DecidableEq, Repr

/-- Embedding of `CollideeDetails::new`. -/
def CollideeDetails.new : CollideeDetails :=
  { name := ""
    position := ⟨0, 0⟩
    half_size := ⟨0, 0⟩
    new_collider_pos := ⟨0, 0⟩
    old_collider_vel := ⟨0, 0⟩
    new_collider_vel := ⟨0, 0⟩
    num_points_of_collision := 0
    correction := 0
    distance := 0
    side := CollisionSideOfBlock.Top }

/-- Embedding of `Collidee` (physics.rs): the per-step collision report. -/
structure Collidee where
  horizontal : Option CollideeDetails
  vertical : Option CollideeDetails
  prev_horizontal : Option CollideeDetails
  prev_vertical : Option CollideeDetails
deriving DecidableEq, Repr

/-- Embedding of `Collidee::new`. -/
def Collidee.new : Collidee :=
  { horizontal := none
    vertical := none
    prev_horizontal := none
    prev_vertical := none }

/-- Embedding of `Collidee::both`. -/
def Collidee.both (c : Collidee) : Bool :=
  c.horizontal.isSome && c.vertical.isSome

/-- Embedding of `Collidee::prev_collision_points`. -/
def Collidee.prev_collision_points (c : Collidee) : Int :=
  (match c.prev_horizontal with
   | some x => x.num_points_of_collision
   | none => 0) +
  (match c.prev_vertical with
   | some x => x.num_points_of_collision
   | none => 0)

/-- Embedding of `Collidee::current_collision_points`. -/
def Collidee.current_collision_points (c : Collidee) : Int :=
  (match c.horizontal with
   | some x => x.num_points_of_collision
   | none => 0) +
  (match c.vertical with
   | some x => x.num_points_of_collision
   | none => 0)

/-- Embedding of `PlatformCuboid` (physics.rs). -/
structure PlatformCuboid where
  half_width : ℚ
  half_height : ℚ
deriving DecidableEq, Repr

/-- Embedding of `PlatformCuboid::within_range_x`. -/
def PlatformCuboid.within_range_x
    (c : PlatformCuboid) (point pos : Vec2) (delta : ℚ) : Bool :=
  if point.x ≤ pos.x + c.half_width + delta ∧
      point.x ≥ pos.x - c.half_width - delta then
    true
  else
    false

/-- Embedding of `PlatformCuboid::within_range_y`. -/
def PlatformCuboid.within_range_y
    (c : PlatformCuboid) (point pos : Vec2) (delta : ℚ) : Bool :=
  if point.y ≤ pos.y + c.half_height + delta ∧
      point.y ≥ pos.y - c.half_height - delta then
    true
  else
    false

/-- Embedding of `PlatformCuboid::intersect_x`. -/
def PlatformCuboid.intersect_x (c : PlatformCuboid) (point pos : Vec2) : Bool :=
  c.within_range_x point pos 0

/-- Embedding of `PlatformCuboid::intersect_y`. -/
def PlatformCuboid.intersect_y (c : PlatformCuboid) (point pos : Vec2) : Bool :=
  c.within_range_y point pos 0

/-- Embedding of `PlatformCuboid::intersects_point`. -/
def PlatformCuboid.intersects_point
    (c : PlatformCuboid) (point pos : Vec2) : Bool :=
  c.intersect_x point pos && c.intersect_y point pos

/-- Embedding of the geometric content of `rstar::AABB<[f32; 2]>`:
a lower and an upper corner. -/
structure AABB where
  lower : Vec2
  upper : Vec2
deriving DecidableEq, Repr

/-- Modelled from the rstar library dependency (not part of this
repository): `AABB::from_corners(p1, p2)` builds the axis-aligned box
containing both corner points, taking the componentwise minimum as the
lower corner and the componentwise maximum as the upper corner. -/
def AABB.from_corners (a b : Vec2) : AABB :=
  ⟨⟨min a.x b.x, min a.y b.y⟩, ⟨max a.x b.x, max a.y b.y⟩⟩

/-- Embedding of `RTreeEntity` (physics.rs); the opaque ECS `Entity`
handle is embedded as a natural-number identifier. -/
structure RTreeEntity where
  pos : Vec2
  half_size : Vec2
  entity : Nat
deriving DecidableEq, Repr

/-- Embedding of `RTreeEntity::get_corners`. -/
def RTreeEntity.get_corners (r : RTreeEntity) : Vec2 × Vec2 :=
  (⟨r.pos.x - r.half_size.x, r.pos.y - r.half_size.y⟩,
   ⟨r.pos.x + r.half_size.x, r.pos.y + r.half_size.y⟩)

/-- Embedding of `RTreeEntity::envelope` (the `RTreeObject` impl). -/
def RTreeEntity.envelope (r : RTreeEntity) : AABB :=
  AABB.from_corners r.get_corners.1 r.get_corners.2

/-- The named system registrations of `GameDataBuilder` in main.rs, in
registration order: each entry is the system's name together with the
list of dependency names passed to `.with(...)`. -/
def registered_systems : List (String × List String) :=
  [("console_input_system", ["input_system"]),
   ("player_input_system", ["input_system", "console_input_system"]),
   ("actor_collision_system", []),
   ("apply_gravity_system", []),
   ("platform_collision_system",
     ["player_input_system", "apply_gravity_system",
      "actor_collision_system"]),
   ("apply_collision_system", ["platform_collision_system"]),
   ("apply_velocity_system", ["apply_collision_system"]),
   ("apply_sticky_system", ["apply_velocity_system"])]

/-- The declared direct dependencies of a registered system. -/
def deps_of (s : String) : List String :=
  match registered_systems.find? (fun p => p.1 = s) with
  | some p => p.2
  | none => []

/-- Fuelled transitive closure of the declared dependencies. -/
def trans_deps : Nat → String → List String
  | 0, _ => []
  | fuel + 1, s =>
      (deps_of s).foldr (fun d acc => d :: (trans_deps fuel d ++ acc)) []

/-- The dispatcher guarantees that `a` completes before `b` begins
exactly when `a` is a (transitive) declared dependency of `b`;
independent systems carry no ordering guarantee. -/
def must_run_before (a b : String) : Bool :=
  (trans_deps registered_systems.length b).contains a

/-- The probe offsets of a probe set describe exactly the box with
corners `lo` and `hi`: every probe offset lies inside the box and each
of the four box edges is attained by some probe offset. -/
def probes_box (p : PlatformCollisionPoints) (lo hi : Vec2) : Prop :=
  (∀ c ∈ p.collision_points,
    lo.x ≤ c.point.x ∧ c.point.x ≤ hi.x ∧
    lo.y ≤ c.point.y ∧ c.point.y ≤ hi.y) ∧
  (∃ c ∈ p.collision_points, c.point.x = lo.x) ∧
  (∃ c ∈ p.collision_points, c.point.x = hi.x) ∧
  (∃ c ∈ p.collision_points, c.point.y = lo.y) ∧
  (∃ c ∈ p.collision_points, c.point.y = hi.y)

instance (p : PlatformCollisionPoints) (lo hi : Vec2) :
    Decidable (probes_box p lo hi) := by
  unfold probes_box
  infer_instance

/-- Claim C1: for every probe set built by `plus(w, h)` and every new
half-height `nh`, `shrink_height_collision_points nh` followed by
`reset_collision_points` restores exactly the original state: the same
`half_size` and the same four probes in the same order. -/
theorem claim_C1_shrink_reset_roundtrip (w h nh : ℚ) :
    ((PlatformCollisionPoints.plus w h).shrink_height_collision_points
        nh).reset_collision_points =
      PlatformCollisionPoints.plus w h := rfl

/-- Claim C3: for every probe set with stored half size `(w, h)` and
every new half-height `nh`, `shrink_height_collision_points nh` yields
exactly four probes: left and right recentred at vertical offset
`-h + nh` with half reach `nh`, top at offset `(0, -h + 2nh)`, and the
bottom probe anchored at the original bottom edge `(0, -h)`. -/
theorem claim_C3_shrink_layout (cps : List CollisionPoint) (w h nh : ℚ) :
    (PlatformCollisionPoints.shrink_height_collision_points
        ⟨cps, ⟨w, h⟩⟩ nh).collision_points =
      [⟨⟨-w, -h + nh⟩, nh, false⟩,
       ⟨⟨w, -h + nh⟩, nh, false⟩,
       ⟨⟨0, -h + 2 * nh⟩, w, true⟩,
       ⟨⟨0, -h⟩, w, true⟩] := by
  simp [PlatformCollisionPoints.shrink_height_collision_points]
  ring

/-- Claim C4 counterexample: in the plus pattern the probes do NOT carry
`is_horizontal = true` on the left/right probes and `false` on the
top/bottom probes; at `plus 1 1` the flag list is not
`[true, true, false, false]`. -/
theorem claim_C4_counterexample :
    ¬ ((PlatformCollisionPoints.plus 1 1).collision_points.map
        (fun c => c.is_horizontal) = [true, true, false, false]) := by
  decide

/-- Claim C4 (amended): in the default plus pattern produced by
`reset_collision_points` (and by `plus`), the left and right probes
carry `is_horizontal = false` and the top and bottom probes carry
`is_horizontal = true`. -/
theorem claim_C4_flags (w h : ℚ) (p : PlatformCollisionPoints) :
    ((PlatformCollisionPoints.plus w h).collision_points.map
        (fun c => c.is_horizontal) = [false, false, true, true]) ∧
    (p.reset_collision_points.collision_points.map
        (fun c => c.is_horizontal) = [false, false, true, true]) :=
  ⟨rfl, rfl⟩

/-- Claim C6: `both` returns `true` exactly when the horizontal and the
vertical slot are both `some`, and returns `false` in every other
combination (at least one slot `none`). -/
theorem claim_C6_both_iff (c : Collidee) :
    (c.both = true ↔
      (∃ dh, c.horizontal = some dh) ∧ (∃ dv, c.vertical = some dv)) ∧
    (c.both = false ↔ c.horizontal = none ∨ c.vertical = none) := by
  cases hh : c.horizontal <;> cases hv : c.vertical <;>
    simp [Collidee.both, hh, hv]

/-- Claim C10: a freshly constructed `Collidee` has all four slots equal
to `none`; consequently `both` is `false` and both collision-point
counters return `0`. -/
theorem claim_C10_new_collidee :
    Collidee.new.horizontal = none ∧ Collidee.new.vertical = none ∧
    Collidee.new.prev_horizontal = none ∧
    Collidee.new.prev_vertical = none ∧
    Collidee.new.both = false ∧
    Collidee.new.current_collision_points = 0 ∧
    Collidee.new.prev_collision_points = 0 :=
  ⟨rfl, rfl, rfl, rfl, rfl, rfl, rfl⟩

/-- Claim C2 counterexample: the registration in main.rs declares no
dependency between the gravity pass and the actor-actor pass in either
direction, so the dispatcher gives no guarantee that the gravity pass
completes before the actor-actor pass begins. -/
theorem claim_C2_counterexample :
    must_run_before "apply_gravity_system" "actor_collision_system" = false ∧
    must_run_before "actor_collision_system" "apply_gravity_system" = false := by
  decide

/-- Claim C2 (amended): the declared dependencies guarantee that the
gravity, actor-actor and player-input passes all complete before the
platform-collision pass, which completes before apply-collision, then
apply-velocity, then apply-sticky (transitively, every earlier pass of
that chain precedes every later one); gravity and actor-actor are
mutually unordered. -/
theorem claim_C2_pass_order :
    must_run_before "apply_gravity_system" "platform_collision_system" = true ∧
    must_run_before "actor_collision_system" "platform_collision_system" = true ∧
    must_run_before "player_input_system" "platform_collision_system" = true ∧
    must_run_before "platform_collision_system" "apply_collision_system" = true ∧
    must_run_before "apply_collision_system" "apply_velocity_system" = true ∧
    must_run_before "apply_velocity_system" "apply_sticky_system" = true ∧
    must_run_before "apply_gravity_system" "apply_collision_system" = true ∧
    must_run_before "apply_gravity_system" "apply_sticky_system" = true ∧
    must_run_before "actor_collision_system" "apply_velocity_system" = true ∧
    must_run_before "platform_collision_system" "apply_sticky_system" = true := by
  decide

/-- Claim C7: `within_range_x` holds exactly on the closed interval
`[pos.x - half_width - delta, pos.x + half_width + delta]`,
`within_range_y` likewise on `y` with `half_height`, and
`intersects_point` is the conjunction of the two per-axis tests at
`delta = 0`, boundary included. -/
theorem claim_C7_range_tests (c : PlatformCuboid) (point pos : Vec2)
    (delta : ℚ) :
    (c.within_range_x point pos delta = true ↔
      pos.x - c.half_width - delta ≤ point.x ∧
      point.x ≤ pos.x + c.half_width + delta) ∧
    (c.within_range_y point pos delta = true ↔
      pos.y - c.half_height - delta ≤ point.y ∧
      point.y ≤ pos.y + c.half_height + delta) ∧
    (c.intersects_point point pos = true ↔
      (pos.x - c.half_width ≤ point.x ∧ point.x ≤ pos.x + c.half_width) ∧
      (pos.y - c.half_height ≤ point.y ∧ point.y ≤ pos.y + c.half_height)) := by
  simp only [PlatformCuboid.within_range_x, PlatformCuboid.within_range_y,
    PlatformCuboid.intersects_point, PlatformCuboid.intersect_x,
    PlatformCuboid.intersect_y, Bool.and_eq_true, ge_iff_le, add_zero,
    sub_zero]
  refine ⟨?_, ?_, ?_⟩ <;> constructor
  · intro hx
    split at hx
    · tauto
    · exact absurd hx (by simp)
  · intro hx
    rw [if_pos ⟨hx.2, hx.1⟩]
  · intro hy
    split at hy
    · tauto
    · exact absurd hy (by simp)
  · intro hy
    rw [if_pos ⟨hy.2, hy.1⟩]
  · rintro ⟨hx, hy⟩
    split at hx
    · split at hy
      · tauto
      · exact absurd hy (by simp)
    · exact absurd hx (by simp)
  · rintro ⟨⟨hx1, hx2⟩, ⟨hy1, hy2⟩⟩
    rw [if_pos ⟨hx2, hx1⟩, if_pos ⟨hy2, hy1⟩]
    exact ⟨rfl, rfl⟩

/-- Claim C5 counterexample: after `shrink_height_collision_points 1` on
`plus 1 2` the stored half size is still `(1, 2)` but the extreme probe
offsets no longer describe the box `[-1, 1] × [-2, 2]` (no probe
reaches `y = 2`). -/
theorem claim_C5_counterexample :
    ((PlatformCollisionPoints.plus 1 2).shrink_height_collision_points
        1).half_size = ⟨1, 2⟩ ∧
    ¬ probes_box
        ((PlatformCollisionPoints.plus 1 2).shrink_height_collision_points 1)
        ⟨-1, -2⟩ ⟨1, 2⟩ := by
  refine ⟨rfl, ?_⟩
  rintro ⟨-, -, -, -, c, hc, hy⟩
  simp only [PlatformCollisionPoints.plus,
    PlatformCollisionPoints.reset_collision_points,
    PlatformCollisionPoints.shrink_height_collision_points,
    List.mem_cons, List.not_mem_nil, or_false] at hc
  rcases hc with rfl | rfl | rfl | rfl <;> dsimp only at hy <;> norm_num at hy

/-- Claim C5 (amended): after `reset_collision_points` the extreme probe
offsets describe exactly the box given by the stored half size; after
`shrink_height_collision_points nh` (for `0 ≤ nh ≤ h`) the stored half
size is unchanged while the extreme probe offsets describe the shrunken
box `[-w, w] × [-h, -h + 2nh]` anchored at the original bottom edge,
which coincides with the half-size box only when `nh = h`. -/
theorem claim_C5_probe_bounds (cps : List CollisionPoint) (w h nh : ℚ)
    (hw : 0 ≤ w) (hh : 0 ≤ h) (hnh0 : 0 ≤ nh) (hnh : nh ≤ h) :
    probes_box (PlatformCollisionPoints.reset_collision_points
        ⟨cps, ⟨w, h⟩⟩) ⟨-w, -h⟩ ⟨w, h⟩ ∧
    (PlatformCollisionPoints.shrink_height_collision_points
        ⟨cps, ⟨w, h⟩⟩ nh).half_size = ⟨w, h⟩ ∧
    probes_box (PlatformCollisionPoints.shrink_height_collision_points
        ⟨cps, ⟨w, h⟩⟩ nh) ⟨-w, -h⟩ ⟨w, -h + 2 * nh⟩ := by
  refine ⟨⟨?_, ?_, ?_, ?_, ?_⟩, rfl, ?_, ?_, ?_, ?_, ?_⟩
  · intro c hc
    simp only [PlatformCollisionPoints.reset_collision_points,
      List.mem_cons, List.not_mem_nil, or_false] at hc
    rcases hc with rfl | rfl | rfl | rfl <;> dsimp only <;>
      exact ⟨by linarith, by linarith, by linarith, by linarith⟩
  · exact ⟨⟨⟨-w, 0⟩, h, false⟩,
      by simp [PlatformCollisionPoints.reset_collision_points], rfl⟩
  · exact ⟨⟨⟨w, 0⟩, h, false⟩,
      by simp [PlatformCollisionPoints.reset_collision_points], rfl⟩
  · exact ⟨⟨⟨0, -h⟩, w, true⟩,
      by simp [PlatformCollisionPoints.reset_collision_points], rfl⟩
  · exact ⟨⟨⟨0, h⟩, w, true⟩,
      by simp [PlatformCollisionPoints.reset_collision_points], rfl⟩
  · intro c hc
    simp only [PlatformCollisionPoints.shrink_height_collision_points,
      List.mem_cons, List.not_mem_nil, or_false] at hc
    rcases hc with rfl | rfl | rfl | rfl <;> dsimp only <;>
      exact ⟨by linarith, by linarith, by linarith, by linarith⟩
  · exact ⟨⟨⟨-w, -h + nh⟩, nh, false⟩,
      by simp [PlatformCollisionPoints.shrink_height_collision_points], rfl⟩
  · exact ⟨⟨⟨w, -h + nh⟩, nh, false⟩,
      by simp [PlatformCollisionPoints.shrink_height_collision_points], rfl⟩
  · exact ⟨⟨⟨0, -h⟩, w, true⟩,
      by simp [PlatformCollisionPoints.shrink_height_collision_points], rfl⟩
  · exact ⟨⟨⟨0, -h + nh + nh⟩, w, true⟩,
      by simp [PlatformCollisionPoints.shrink_height_collision_points],
      by dsimp only; ring⟩

/-- Claim C5 witness: the amended bound property at the concrete probe
set with half size `(1, 2)` shrunk to half height `1`. -/
theorem claim_C5_probe_bounds_witness :
    (0 : ℚ) ≤ 1 ∧ (0 : ℚ) ≤ 2 ∧ (1 : ℚ) ≤ 2 ∧
    (probes_box (PlatformCollisionPoints.reset_collision_points
        ⟨[], ⟨1, 2⟩⟩) ⟨-1, -2⟩ ⟨1, 2⟩ ∧
      (PlatformCollisionPoints.shrink_height_collision_points
          ⟨[], ⟨1, 2⟩⟩ 1).half_size = ⟨1, 2⟩ ∧
      probes_box (PlatformCollisionPoints.shrink_height_collision_points
          ⟨[], ⟨1, 2⟩⟩ 1) ⟨-1, -2⟩ ⟨1, -2 + 2 * 1⟩) :=
  ⟨by norm_num, by norm_num, by norm_num,
    claim_C5_probe_bounds [] 1 2 1 (by norm_num) (by norm_num)
      (by norm_num) (by norm_num)⟩

/-- Claim C8 counterexample: a zero-size cuboid (both half-extents `0`)
does NOT yield a no-collision result for every point: its own center
still intersects it. -/
theorem claim_C8_counterexample :
    (PlatformCuboid.mk 0 0).intersects_point ⟨0, 0⟩ ⟨0, 0⟩ = true := by
  simp [PlatformCuboid.intersects_point, PlatformCuboid.intersect_x,
    PlatformCuboid.intersect_y, PlatformCuboid.within_range_x,
    PlatformCuboid.within_range_y]

/-- Claim C8 (amended): an inverted cuboid (a strictly negative
half-extent on either axis) yields a no-collision result for every
candidate point; a zero-size cuboid, by contrast, still reports
collision for points on its degenerate boundary. -/
theorem claim_C8_inverted_no_collision (c : PlatformCuboid)
    (point pos : Vec2) (hc : c.half_width < 0 ∨ c.half_height < 0) :
    c.intersects_point point pos = false := by
  rcases hc with hc | hc
  · have hx : c.within_range_x point pos 0 = false := by
      simp only [PlatformCuboid.within_range_x, ite_eq_right_iff,
        ge_iff_le, and_imp]
      intro h1 h2
      exfalso
      linarith
    simp [PlatformCuboid.intersects_point, PlatformCuboid.intersect_x, hx]
  · have hy : c.within_range_y point pos 0 = false := by
      simp only [PlatformCuboid.within_range_y, ite_eq_right_iff,
        ge_iff_le, and_imp]
      intro h1 h2
      exfalso
      linarith
    simp [PlatformCuboid.intersects_point, PlatformCuboid.intersect_y, hy]

/-- Claim C8 witness: a cuboid with half width `-1` is inverted and
rejects the origin. -/
theorem claim_C8_inverted_witness :
    ((PlatformCuboid.mk (-1) 1).half_width < 0 ∨
      (PlatformCuboid.mk (-1) 1).half_height < 0) ∧
    (PlatformCuboid.mk (-1) 1).intersects_point ⟨0, 0⟩ ⟨0, 0⟩ = false :=
  ⟨Or.inl (by norm_num),
    claim_C8_inverted_no_collision (PlatformCuboid.mk (-1) 1) ⟨0, 0⟩ ⟨0, 0⟩
      (Or.inl (by norm_num))⟩

/-- Claim C9 counterexample: with a negative half size the lower corner
of the envelope is not `pos - half_size` (the corners swap), so the
claim fails as stated for every `RTreeEntity`. -/
theorem claim_C9_counterexample :
    ¬ ((RTreeEntity.mk ⟨0, 0⟩ ⟨-1, -1⟩ 0).envelope.lower =
        ⟨(0 : ℚ) - (-1), (0 : ℚ) - (-1)⟩) := by
  simp only [RTreeEntity.envelope, RTreeEntity.get_corners,
    AABB.from_corners]
  intro h
  rw [Vec2.mk.injEq] at h
  norm_num at h

/-- Claim C9 (amended): for every `RTreeEntity` whose half size has
non-negative components, `envelope` returns the box whose lower corner
is `pos - half_size` and whose upper corner is `pos + half_size`. -/
theorem claim_C9_envelope (pos hs : Vec2) (e : Nat)
    (hx : 0 ≤ hs.x) (hy : 0 ≤ hs.y) :
    (RTreeEntity.mk pos hs e).envelope =
      ⟨⟨pos.x - hs.x, pos.y - hs.y⟩, ⟨pos.x + hs.x, pos.y + hs.y⟩⟩ := by
  simp only [RTreeEntity.envelope, RTreeEntity.get_corners,
    AABB.from_corners]
  rw [min_eq_left (by linarith), min_eq_left (by linarith),
    max_eq_right (by linarith), max_eq_right (by linarith)]

/-- Claim C9 witness: the envelope of the entity at `(5, 7)` with half
size `(1, 2)`. -/
theorem claim_C9_envelope_witness :
    (0 : ℚ) ≤ 1 ∧ (0 : ℚ) ≤ 2 ∧
    (RTreeEntity.mk ⟨5, 7⟩ ⟨1, 2⟩ 3).envelope =
      ⟨⟨5 - 1, 7 - 2⟩, ⟨5 + 1, 7 + 2⟩⟩ :=
  ⟨by norm_num, by norm_num,
    claim_C9_envelope ⟨5, 7⟩ ⟨1, 2⟩ 3 (by norm_num) (by norm_num)⟩
